import Mathlib

/-!
Verification of the relaxed_channel backoff layer.

The crate wraps async_channel endpoints: on a fast-path miss (Empty for a
receive, Full for a send) the wrapper sleeps for a fixed relaxation duration
and then performs one real blocking/awaiting channel operation.

The embedding is trace-based: each wrapper call returns its result together
with the ordered list of sleep and channel operations it performed.  The
underlying channel (an external collaborator) is modelled by its documented
contract: a FIFO queue with an optional capacity and a closed flag; the
outcome of the single wait-path blocking operation, which depends on what
other tasks do during the blind sleep, is supplied as an oracle argument.
-/

namespace RelaxedChannel

variable {T : Type}

/-- A time span in nanoseconds; models std::time::Duration. -/
structure Duration where
  nanos : Nat
deriving DecidableEq, Repr

/-- Models Duration::from_millis. -/
def Duration.from_millis (ms : Nat) : Duration :=
  ⟨ms * 1000000⟩

/-- DEFAULT_RELAXATION constant from lib.rs: 100 milliseconds. -/
def DEFAULT_RELAXATION : Duration :=
  Duration.from_millis 100

/-- State of the underlying async_channel channel (external collaborator):
a FIFO queue of buffered messages, an optional capacity (none when
unbounded), and a flag recording that the channel is closed. -/
structure Channel (T : Type) where
  queue : List T
  capacity : Option Nat
  closed : Bool
deriving DecidableEq, Repr

/-- A fresh bounded channel of the given capacity. -/
def Channel.mk_bounded (cap : Nat) : Channel T :=
  ⟨[], some cap, false⟩

/-- A fresh unbounded channel. -/
def Channel.mk_unbounded : Channel T :=
  ⟨[], none, false⟩

/-- Whether a bounded channel is at capacity; an unbounded channel is never full. -/
def Channel.is_full (c : Channel T) : Bool :=
  match c.capacity with
  | some cap => decide (cap ≤ c.queue.length)
  | none => false

/-- Result of async_channel try_recv: a message, Empty, or Closed. -/
inductive TryRecvResult (T : Type) where
  | ok (msg : T)
  | empty
  | closed
deriving DecidableEq, Repr

/-- Result type of recv: Result of a message or RecvError (the channel is
closed and drained). -/
inductive RecvResult (T : Type) where
  | ok (msg : T)
  | closed
deriving DecidableEq, Repr

/-- Result of async_channel try_send: success, Full carrying the item back,
or Closed carrying the item back. -/
inductive TrySendResult (T : Type) where
  | ok
  | full (msg : T)
  | closed (msg : T)
deriving DecidableEq, Repr

/-- Result type of send: Ok or SendError carrying the undelivered item. -/
inductive SendResult (T : Type) where
  | ok
  | closed (msg : T)
deriving DecidableEq, Repr

/-- Outcome reported by the underlying channel for a blocking/awaiting send:
either the item was enqueued or the channel was closed. -/
inductive SendOutcome where
  | ok
  | closed
deriving DecidableEq, Repr

/-- Consuming endpoint handle of the underlying channel. -/
structure Receiver (T : Type) where
  chan : Channel T
deriving DecidableEq, Repr

/-- Producing endpoint handle of the underlying channel. -/
structure Sender (T : Type) where
  chan : Channel T
deriving DecidableEq, Repr

/-- Cloning an endpoint is a reference-counted duplicate: the clone refers to
the same underlying channel. -/
def Receiver.clone (r : Receiver T) : Receiver T :=
  r

/-- Cloning an endpoint is a reference-counted duplicate: the clone refers to
the same underlying channel. -/
def Sender.clone (s : Sender T) : Sender T :=
  s

/-- async_channel try_recv contract: pops the oldest buffered message if one
exists (even on a closed channel); otherwise reports Closed if the channel
is closed, else Empty. -/
def Receiver.try_recv (r : Receiver T) : TryRecvResult T × Receiver T :=
  match r.chan.queue with
  | msg :: rest => (.ok msg, ⟨{ r.chan with queue := rest }⟩)
  | [] => if r.chan.closed then (.closed, r) else (.empty, r)

/-- async_channel try_send contract: on a closed channel reports Closed
carrying the item back; on a full channel reports Full carrying the item
back; otherwise enqueues the item at the back of the queue. -/
def Sender.try_send (s : Sender T) (msg : T) : TrySendResult T × Sender T :=
  if s.chan.closed then (.closed msg, s)
  else if s.chan.is_full then (.full msg, s)
  else (.ok, ⟨{ s.chan with queue := s.chan.queue ++ [msg] }⟩)

/-- async_channel len: number of buffered, undelivered messages. -/
def Receiver.len (r : Receiver T) : Nat :=
  r.chan.queue.length

/-- async_channel capacity: the configured capacity, none if unbounded. -/
def Receiver.capacity (r : Receiver T) : Option Nat :=
  r.chan.capacity

/-- async_channel len: number of buffered, undelivered messages. -/
def Sender.len (s : Sender T) : Nat :=
  s.chan.queue.length

/-- async_channel capacity: the configured capacity, none if unbounded. -/
def Sender.capacity (s : Sender T) : Option Nat :=
  s.chan.capacity

/-- Result delivered by the underlying channel for a blocking/awaiting send,
given the oracle outcome: per the contract, a Closed failure carries the
very item that was being sent back to the caller. -/
def Sender.send_wait (outcome : SendOutcome) (msg : T) : SendResult T :=
  match outcome with
  | .ok => .ok
  | .closed => .closed msg

/-- Whether a sleep or wait step suspends cooperatively (tokio) or blocks the
thread (std). -/
inductive SleepKind where
  | cooperative
  | thread
deriving DecidableEq, Repr

/-- One step performed by a receive call: a non-blocking channel attempt, a
blind sleep (no channel operation), or a blocking/awaiting channel wait. -/
inductive RecvEvent (T : Type) where
  | try_recv (r : TryRecvResult T)
  | sleep (k : SleepKind) (d : Duration)
  | wait_recv (k : SleepKind) (r : RecvResult T)
deriving DecidableEq, Repr

/-- One step performed by a send call: a non-blocking channel attempt, a
blind sleep (no channel operation), or a blocking/awaiting channel wait. -/
inductive SendEvent (T : Type) where
  | try_send (r : TrySendResult T)
  | sleep (k : SleepKind) (d : Duration)
  | wait_send (k : SleepKind) (r : SendResult T)
deriving DecidableEq, Repr

/-- A step touches the underlying channel unless it is a blind sleep. -/
def RecvEvent.is_channel_op : RecvEvent T → Bool
  | .sleep _ _ => false
  | _ => true

/-- A step touches the underlying channel unless it is a blind sleep. -/
def SendEvent.is_channel_op : SendEvent T → Bool
  | .sleep _ _ => false
  | _ => true

/-- The duration slept by a step, when the step is a sleep. -/
def RecvEvent.sleep_dur : RecvEvent T → Option Duration
  | .sleep _ d => some d
  | _ => none

/-- The duration slept by a step, when the step is a sleep. -/
def SendEvent.sleep_dur : SendEvent T → Option Duration
  | .sleep _ d => some d
  | _ => none

/-- Whether every suspension point of a step uses the given kind
(pure channel attempts carry no kind). -/
def RecvEvent.kind_is (k : SleepKind) : RecvEvent T → Bool
  | .try_recv _ => true
  | .sleep k2 _ => decide (k2 = k)
  | .wait_recv k2 _ => decide (k2 = k)

/-- Whether every suspension point of a step uses the given kind
(pure channel attempts carry no kind). -/
def SendEvent.kind_is (k : SleepKind) : SendEvent T → Bool
  | .try_send _ => true
  | .sleep k2 _ => decide (k2 = k)
  | .wait_send k2 _ => decide (k2 = k)

/-- RelaxedReceiver (receiver.rs): the wrapped consuming endpoint and the
immutable relaxation duration. -/
structure RelaxedReceiver (T : Type) where
  receiver : Receiver T
  relax_for : Duration
deriving DecidableEq, Repr

/-- RelaxedSender (sender.rs): the wrapped producing endpoint and the
immutable relaxation duration. -/
structure RelaxedSender (T : Type) where
  sender : Sender T
  relax_for : Duration
deriving DecidableEq, Repr

/-- Clone impl for RelaxedReceiver: clones the endpoint (sharing the channel)
and copies the duration value. -/
def RelaxedReceiver.clone (rr : RelaxedReceiver T) : RelaxedReceiver T :=
  { receiver := rr.receiver.clone, relax_for := rr.relax_for }

/-- Clone impl for RelaxedSender: clones the endpoint (sharing the channel)
and copies the duration value. -/
def RelaxedSender.clone (rs : RelaxedSender T) : RelaxedSender T :=
  { sender := rs.sender.clone, relax_for := rs.relax_for }

/-- RelaxedReceiver::relaxing_for: wrap a receiver with a chosen relaxation. -/
def RelaxedReceiver.relaxing_for (receiver : Receiver T) (relax_for : Duration) :
    RelaxedReceiver T :=
  { receiver := receiver, relax_for := relax_for }

/-- RelaxedReceiver::new: wrap a receiver with the 100ms default relaxation. -/
def RelaxedReceiver.new (receiver : Receiver T) : RelaxedReceiver T :=
  RelaxedReceiver.relaxing_for receiver DEFAULT_RELAXATION

/-- RelaxedSender::relaxing_for: wrap a sender with a chosen relaxation. -/
def RelaxedSender.relaxing_for (sender : Sender T) (relax_for : Duration) :
    RelaxedSender T :=
  { sender := sender, relax_for := relax_for }

/-- RelaxedSender::new: wrap a sender with the 100ms default relaxation. -/
def RelaxedSender.new (sender : Sender T) : RelaxedSender T :=
  RelaxedSender.relaxing_for sender DEFAULT_RELAXATION

/-- RelaxedReceiver::recv (receiver.rs lines 44-53): try_recv; on a message
return it, on Closed return the error, on Empty sleep relax_for
(tokio::time::sleep) and then perform one awaiting recv whose result w is
the oracle.  Returns the result and the trace of steps performed. -/
def RelaxedReceiver.recv (rr : RelaxedReceiver T) (w : RecvResult T) :
    RecvResult T × List (RecvEvent T) :=
  match (rr.receiver.try_recv).fst with
  | .ok msg => (.ok msg, [.try_recv (.ok msg)])
  | .closed => (.closed, [.try_recv .closed])
  | .empty =>
      (w, [.try_recv .empty, .sleep .cooperative rr.relax_for,
           .wait_recv .cooperative w])

/-- RelaxedReceiver::recv_blocking (receiver.rs lines 63-72): same policy as
recv with std::thread::sleep and the thread-blocking recv. -/
def RelaxedReceiver.recv_blocking (rr : RelaxedReceiver T) (w : RecvResult T) :
    RecvResult T × List (RecvEvent T) :=
  match (rr.receiver.try_recv).fst with
  | .ok msg => (.ok msg, [.try_recv (.ok msg)])
  | .closed => (.closed, [.try_recv .closed])
  | .empty =>
      (w, [.try_recv .empty, .sleep .thread rr.relax_for,
           .wait_recv .thread w])

/-- One unfold step of RelaxedReceiver::stream: res.ok() maps a Closed error
to none, which terminates the unfold; a message is yielded with the unit
state to continue. -/
def stream_step (res : RecvResult T) : Option (T × Unit) :=
  match res with
  | .ok msg => some (msg, ())
  | .closed => none

/-- RelaxedReceiver::stream: the lazy sequence obtained by repeatedly
invoking recv, taking the list of successive recv outcomes as the oracle;
the unfold ends permanently at the first step returning none. -/
def stream_unfold : List (RecvResult T) → List T
  | [] => []
  | res :: rest =>
      match stream_step res with
      | some (msg, _) => msg :: stream_unfold rest
      | none => []

/-- RelaxedReceiver::len: pass-through to the endpoint. -/
def RelaxedReceiver.len (rr : RelaxedReceiver T) : Nat :=
  rr.receiver.len

/-- RelaxedReceiver::capacity: pass-through to the endpoint. -/
def RelaxedReceiver.capacity (rr : RelaxedReceiver T) : Option Nat :=
  rr.receiver.capacity

/-- RelaxedReceiver::into_inner: give back the wrapped endpoint. -/
def RelaxedReceiver.into_inner (rr : RelaxedReceiver T) : Receiver T :=
  rr.receiver

/-- RelaxedReceiver::inner: reference to the wrapped endpoint. -/
def RelaxedReceiver.inner (rr : RelaxedReceiver T) : Receiver T :=
  rr.receiver

/-- RelaxedSender::send (sender.rs lines 44-53): try_send; on success return
Ok, on Closed return the error carrying the item, on Full sleep relax_for
(tokio::time::sleep) and then perform one awaiting send of the returned
item, whose outcome w is the oracle. -/
def RelaxedSender.send (rs : RelaxedSender T) (msg : T) (w : SendOutcome) :
    SendResult T × List (SendEvent T) :=
  match (rs.sender.try_send msg).fst with
  | .ok => (.ok, [.try_send .ok])
  | .closed m => (.closed m, [.try_send (.closed m)])
  | .full m =>
      (Sender.send_wait w m,
       [.try_send (.full m), .sleep .cooperative rs.relax_for,
        .wait_send .cooperative (Sender.send_wait w m)])

/-- RelaxedSender::send_blocking (sender.rs lines 63-72): same policy as send
with std::thread::sleep and the thread-blocking send. -/
def RelaxedSender.send_blocking (rs : RelaxedSender T) (msg : T) (w : SendOutcome) :
    SendResult T × List (SendEvent T) :=
  match (rs.sender.try_send msg).fst with
  | .ok => (.ok, [.try_send .ok])
  | .closed m => (.closed m, [.try_send (.closed m)])
  | .full m =>
      (Sender.send_wait w m,
       [.try_send (.full m), .sleep .thread rs.relax_for,
        .wait_send .thread (Sender.send_wait w m)])

/-- RelaxedSender::len: pass-through to the endpoint. -/
def RelaxedSender.len (rs : RelaxedSender T) : Nat :=
  rs.sender.len

/-- RelaxedSender::capacity: pass-through to the endpoint. -/
def RelaxedSender.capacity (rs : RelaxedSender T) : Option Nat :=
  rs.sender.capacity

/-- RelaxedSender::into_inner: give back the wrapped endpoint. -/
def RelaxedSender.into_inner (rs : RelaxedSender T) : Sender T :=
  rs.sender

/-- RelaxedSender::inner: reference to the wrapped endpoint. -/
def RelaxedSender.inner (rs : RelaxedSender T) : Sender T :=
  rs.sender

/-- RelaxedSender::relaxes_for: the configured relaxation duration. -/
def RelaxedSender.relaxes_for (rs : RelaxedSender T) : Duration :=
  rs.relax_for

/-- The producing endpoint as returned by a factory function.  The source
returns the raw async_channel Sender from every factory (return type
(Sender of T, RelaxedReceiver of T) in lib.rs); this sum records, at the
value level, whether the returned producer is relax-wrapped or raw. -/
inductive FactoryProducer (T : Type) where
  | raw (s : Sender T)
  | wrapped (rs : RelaxedSender T)
deriving DecidableEq, Repr

/-- Whether the factory returned a relax-wrapped producing endpoint. -/
def FactoryProducer.is_wrapped : FactoryProducer T → Bool
  | .raw _ => false
  | .wrapped _ => true

/-- lib.rs bounded_relaxing_for: builds a bounded channel with the given
capacity; the sender is returned raw and the receiver is wrapped with the
given relaxation duration. -/
def bounded_relaxing_for (cap : Nat) (relax_for : Duration) :
    FactoryProducer T × RelaxedReceiver T :=
  (.raw ⟨Channel.mk_bounded cap⟩,
   RelaxedReceiver.relaxing_for ⟨Channel.mk_bounded cap⟩ relax_for)

/-- lib.rs bounded: bounded_relaxing_for at the 100ms default relaxation. -/
def bounded (cap : Nat) : FactoryProducer T × RelaxedReceiver T :=
  bounded_relaxing_for cap DEFAULT_RELAXATION

/-- lib.rs unbounded_relaxing_for: builds an unbounded channel; the sender is
returned raw and the receiver is wrapped with the given relaxation. -/
def unbounded_relaxing_for (relax_for : Duration) :
    FactoryProducer T × RelaxedReceiver T :=
  (.raw ⟨Channel.mk_unbounded⟩,
   RelaxedReceiver.relaxing_for ⟨Channel.mk_unbounded⟩ relax_for)

/-- lib.rs unbounded: unbounded_relaxing_for at the 100ms default relaxation. -/
def unbounded : FactoryProducer T × RelaxedReceiver T :=
  unbounded_relaxing_for DEFAULT_RELAXATION

/-- A receive step with the suspension kind erased: the policy-relevant
content (which channel operations, which results, how long a sleep). -/
inductive PolicyRecvEvent (T : Type) where
  | try_recv (r : TryRecvResult T)
  | sleep (d : Duration)
  | wait_recv (r : RecvResult T)
deriving DecidableEq, Repr

/-- A send step with the suspension kind erased. -/
inductive PolicySendEvent (T : Type) where
  | try_send (r : TrySendResult T)
  | sleep (d : Duration)
  | wait_send (r : SendResult T)
deriving DecidableEq, Repr

/-- Erase the suspension kind of a receive step. -/
def RecvEvent.policy : RecvEvent T → PolicyRecvEvent T
  | .try_recv r => .try_recv r
  | .sleep _ d => .sleep d
  | .wait_recv _ r => .wait_recv r

/-- Erase the suspension kind of a send step. -/
def SendEvent.policy : SendEvent T → PolicySendEvent T
  | .try_send r => .try_send r
  | .sleep _ d => .sleep d
  | .wait_send _ r => .wait_send r

/-- recv on a fast path that found a message. -/
theorem recv_of_ok (rr : RelaxedReceiver T) (w : RecvResult T) (m : T)
    (h : (rr.receiver.try_recv).fst = .ok m) :
    rr.recv w = (.ok m, [.try_recv (.ok m)]) := by
  unfold RelaxedReceiver.recv
  rw [h]

/-- recv on a fast path that observed Closed. -/
theorem recv_of_closed (rr : RelaxedReceiver T) (w : RecvResult T)
    (h : (rr.receiver.try_recv).fst = .closed) :
    rr.recv w = (.closed, [.try_recv .closed]) := by
  unfold RelaxedReceiver.recv
  rw [h]

/-- recv on a fast path that observed Empty. -/
theorem recv_of_empty (rr : RelaxedReceiver T) (w : RecvResult T)
    (h : (rr.receiver.try_recv).fst = .empty) :
    rr.recv w = (w, [.try_recv .empty, .sleep .cooperative rr.relax_for,
      .wait_recv .cooperative w]) := by
  unfold RelaxedReceiver.recv
  rw [h]

/-- recv_blocking on a fast path that found a message. -/
theorem recv_blocking_of_ok (rr : RelaxedReceiver T) (w : RecvResult T) (m : T)
    (h : (rr.receiver.try_recv).fst = .ok m) :
    rr.recv_blocking w = (.ok m, [.try_recv (.ok m)]) := by
  unfold RelaxedReceiver.recv_blocking
  rw [h]

/-- recv_blocking on a fast path that observed Closed. -/
theorem recv_blocking_of_closed (rr : RelaxedReceiver T) (w : RecvResult T)
    (h : (rr.receiver.try_recv).fst = .closed) :
    rr.recv_blocking w = (.closed, [.try_recv .closed]) := by
  unfold RelaxedReceiver.recv_blocking
  rw [h]

/-- recv_blocking on a fast path that observed Empty. -/
theorem recv_blocking_of_empty (rr : RelaxedReceiver T) (w : RecvResult T)
    (h : (rr.receiver.try_recv).fst = .empty) :
    rr.recv_blocking w = (w, [.try_recv .empty, .sleep .thread rr.relax_for,
      .wait_recv .thread w]) := by
  unfold RelaxedReceiver.recv_blocking
  rw [h]

/-- send on a fast path that found capacity. -/
theorem send_of_ok (rs : RelaxedSender T) (m : T) (w : SendOutcome)
    (h : (rs.sender.try_send m).fst = .ok) :
    rs.send m w = (.ok, [.try_send .ok]) := by
  unfold RelaxedSender.send
  rw [h]

/-- send on a fast path that observed Closed. -/
theorem send_of_closed (rs : RelaxedSender T) (m m2 : T) (w : SendOutcome)
    (h : (rs.sender.try_send m).fst = .closed m2) :
    rs.send m w = (.closed m2, [.try_send (.closed m2)]) := by
  unfold RelaxedSender.send
  rw [h]

/-- send on a fast path that observed Full. -/
theorem send_of_full (rs : RelaxedSender T) (m m2 : T) (w : SendOutcome)
    (h : (rs.sender.try_send m).fst = .full m2) :
    rs.send m w = (Sender.send_wait w m2,
      [.try_send (.full m2), .sleep .cooperative rs.relax_for,
       .wait_send .cooperative (Sender.send_wait w m2)]) := by
  unfold RelaxedSender.send
  rw [h]

/-- send_blocking on a fast path that found capacity. -/
theorem send_blocking_of_ok (rs : RelaxedSender T) (m : T) (w : SendOutcome)
    (h : (rs.sender.try_send m).fst = .ok) :
    rs.send_blocking m w = (.ok, [.try_send .ok]) := by
  unfold RelaxedSender.send_blocking
  rw [h]

/-- send_blocking on a fast path that observed Closed. -/
theorem send_blocking_of_closed (rs : RelaxedSender T) (m m2 : T) (w : SendOutcome)
    (h : (rs.sender.try_send m).fst = .closed m2) :
    rs.send_blocking m w = (.closed m2, [.try_send (.closed m2)]) := by
  unfold RelaxedSender.send_blocking
  rw [h]

/-- send_blocking on a fast path that observed Full. -/
theorem send_blocking_of_full (rs : RelaxedSender T) (m m2 : T) (w : SendOutcome)
    (h : (rs.sender.try_send m).fst = .full m2) :
    rs.send_blocking m w = (Sender.send_wait w m2,
      [.try_send (.full m2), .sleep .thread rs.relax_for,
       .wait_send .thread (Sender.send_wait w m2)]) := by
  unfold RelaxedSender.send_blocking
  rw [h]

/-- try_send on a channel that is not closed and not full returns the
original message in the Full case never; the Full case arises exactly when
the channel is open and at capacity, carrying the message back. -/
theorem try_send_full_iff (s : Sender T) (m : T) :
    (s.try_send m).fst = .full m ↔ (s.chan.closed = false ∧ s.chan.is_full = true) := by
  unfold Sender.try_send
  rcases hc : s.chan.closed <;> rcases hf : s.chan.is_full <;> simp [hc, hf]

/-- C10: wrapping a raw endpoint with relaxing_for and then unwrapping it
with into_inner or inner gives back exactly that endpoint, and relaxes_for
returns exactly the duration supplied at construction. -/
theorem c10_wrap_then_unwrap_identity (r : Receiver T) (s : Sender T) (d e : Duration) :
    (RelaxedReceiver.relaxing_for r d).into_inner = r ∧
    (RelaxedReceiver.relaxing_for r d).inner = r ∧
    (RelaxedSender.relaxing_for s e).into_inner = s ∧
    (RelaxedSender.relaxing_for s e).inner = s ∧
    (RelaxedSender.relaxing_for s e).relaxes_for = e :=
  ⟨rfl, rfl, rfl, rfl, rfl⟩

/-- C7: len and capacity on both wrappers are pure pass-throughs to the
underlying endpoint; capacity reports the configured bound for a bounded
channel and none for an unbounded one, and len is the number of buffered,
undelivered messages in the underlying channel. -/
theorem c7_len_capacity_pass_through (rr : RelaxedReceiver T) (rs : RelaxedSender T)
    (cap : Nat) (d e : Duration) :
    rr.len = rr.receiver.len ∧
    rr.len = rr.receiver.chan.queue.length ∧
    rr.capacity = rr.receiver.capacity ∧
    rr.capacity = rr.receiver.chan.capacity ∧
    rs.len = rs.sender.len ∧
    rs.len = rs.sender.chan.queue.length ∧
    rs.capacity = rs.sender.capacity ∧
    rs.capacity = rs.sender.chan.capacity ∧
    (RelaxedReceiver.relaxing_for (⟨Channel.mk_bounded cap⟩ : Receiver T) d).capacity
      = some cap ∧
    (RelaxedReceiver.relaxing_for (⟨Channel.mk_unbounded⟩ : Receiver T) d).capacity
      = none ∧
    (RelaxedSender.relaxing_for (⟨Channel.mk_bounded cap⟩ : Sender T) e).capacity
      = some cap ∧
    (RelaxedSender.relaxing_for (⟨Channel.mk_unbounded⟩ : Sender T) e).capacity
      = none :=
  ⟨rfl, rfl, rfl, rfl, rfl, rfl, rfl, rfl, rfl, rfl, rfl, rfl⟩

/-- C2 counterexample: at capacity 2 (messages of type Nat), the producing
endpoint returned by bounded is not relax-wrapped, contradicting the claim
that bounded wraps both endpoints. -/
theorem c2_counterexample_producer_not_wrapped :
    (bounded (T := Nat) 2).fst.is_wrapped = false :=
  rfl

/-- C2 (amended): bounded builds a bounded channel of the given capacity,
wraps only the consuming endpoint with the default relaxation duration of
100 milliseconds, and returns the producing endpoint raw on that same
channel. -/
theorem c2_bounded_wraps_receiver_only (cap : Nat) :
    bounded (T := T) cap =
      (.raw ⟨Channel.mk_bounded cap⟩,
       RelaxedReceiver.relaxing_for ⟨Channel.mk_bounded cap⟩ DEFAULT_RELAXATION) ∧
    DEFAULT_RELAXATION = Duration.from_millis 100 :=
  ⟨rfl, rfl⟩

/-- C5: for every sequence of recv outcomes, the unfolded stream yields
exactly the messages preceding the first Closed outcome, collapses that
error into end-of-sequence, and yields nothing further regardless of any
later outcomes. -/
theorem c5_stream_ends_at_first_closed (msgs : List T) (rest : List (RecvResult T)) :
    stream_unfold (msgs.map RecvResult.ok ++ RecvResult.closed :: rest) = msgs ∧
    stream_unfold (msgs.map RecvResult.ok) = msgs := by
  constructor
  · induction msgs with
    | nil => rfl
    | cons m ms ih => simpa [stream_unfold, stream_step] using ih
  · induction msgs with
    | nil => rfl
    | cons m ms ih => simpa [stream_unfold, stream_step] using ih

/-- try_send reports Full only with the very message that was passed in. -/
theorem try_send_full_msg (s : Sender T) (m m2 : T)
    (h : (s.try_send m).fst = .full m2) : m2 = m := by
  unfold Sender.try_send at h
  rcases hc : s.chan.closed <;> rcases hf : s.chan.is_full <;>
    rw [hc, hf] at h <;> simp_all

/-- C1: when the fast-path attempt observes Empty (receive) or Full (send),
each of recv, recv_blocking, send and send_blocking performs exactly a blind
sleep of the full configured relaxation duration and then a single wait-path
channel operation, returning that operation's result: no channel access and
no early return happens during the sleep. -/
theorem c1_committed_to_full_relaxation_sleep (rr : RelaxedReceiver T)
    (rs : RelaxedSender T) (m : T) (w : RecvResult T) (ws : SendOutcome)
    (hE : (rr.receiver.try_recv).fst = .empty)
    (hF : (rs.sender.try_send m).fst = .full m) :
    rr.recv w = (w, [.try_recv .empty, .sleep .cooperative rr.relax_for,
      .wait_recv .cooperative w]) ∧
    rr.recv_blocking w = (w, [.try_recv .empty, .sleep .thread rr.relax_for,
      .wait_recv .thread w]) ∧
    rs.send m ws = (Sender.send_wait ws m,
      [.try_send (.full m), .sleep .cooperative rs.relax_for,
       .wait_send .cooperative (Sender.send_wait ws m)]) ∧
    rs.send_blocking m ws = (Sender.send_wait ws m,
      [.try_send (.full m), .sleep .thread rs.relax_for,
       .wait_send .thread (Sender.send_wait ws m)]) :=
  ⟨recv_of_empty rr w hE, recv_blocking_of_empty rr w hE,
   send_of_full rs m m ws hF, send_blocking_of_full rs m m ws hF⟩

/-- C1 witness: an empty open bounded channel of capacity 4 on the receive
side and a full open channel of capacity 1 on the send side, with a 50ms
relaxation; the committed-sleep theorem applies and the recv call returns
the wait-path message. -/
theorem c1_committed_to_full_relaxation_sleep_witness :
    ((⟨⟨Channel.mk_bounded 4⟩, Duration.from_millis 50⟩ :
        RelaxedReceiver Nat).receiver.try_recv).fst = .empty ∧
    ((⟨⟨⟨[0], some 1, false⟩⟩, Duration.from_millis 50⟩ :
        RelaxedSender Nat).sender.try_send 7).fst = .full 7 ∧
    ((⟨⟨Channel.mk_bounded 4⟩, Duration.from_millis 50⟩ :
        RelaxedReceiver Nat).recv (.ok 3)).fst = .ok 3 :=
  ⟨by decide, by decide, by
    have h := c1_committed_to_full_relaxation_sleep
      (⟨⟨Channel.mk_bounded 4⟩, Duration.from_millis 50⟩ : RelaxedReceiver Nat)
      (⟨⟨⟨[0], some 1, false⟩⟩, Duration.from_millis 50⟩ : RelaxedSender Nat)
      7 (.ok 3) .ok (by decide) (by decide)
    rw [h.1]⟩

/-- C3: on a channel that is closed and fully drained, recv and
recv_blocking return the Closed error from the fast-path check alone: the
trace is the single non-blocking attempt, with no sleep at all. -/
theorem c3_closed_drained_fails_fast_without_sleep (rr : RelaxedReceiver T)
    (w : RecvResult T)
    (hc : rr.receiver.chan.closed = true) (hq : rr.receiver.chan.queue = []) :
    rr.recv w = (.closed, [.try_recv .closed]) ∧
    rr.recv_blocking w = (.closed, [.try_recv .closed]) ∧
    (rr.recv w).snd.filterMap RecvEvent.sleep_dur = [] ∧
    (rr.recv_blocking w).snd.filterMap RecvEvent.sleep_dur = [] := by
  have h : (rr.receiver.try_recv).fst = .closed := by
    simp [Receiver.try_recv, hq, hc]
  refine ⟨recv_of_closed rr w h, recv_blocking_of_closed rr w h, ?_, ?_⟩
  · rw [recv_of_closed rr w h]
    rfl
  · rw [recv_blocking_of_closed rr w h]
    rfl

/-- C3 witness: a closed, drained channel of capacity 2; recv fails Closed
with a one-event trace. -/
theorem c3_closed_drained_fails_fast_without_sleep_witness :
    (⟨⟨⟨([] : List Nat), some 2, true⟩⟩, DEFAULT_RELAXATION⟩ :
        RelaxedReceiver Nat).receiver.chan.closed = true ∧
    (⟨⟨⟨([] : List Nat), some 2, true⟩⟩, DEFAULT_RELAXATION⟩ :
        RelaxedReceiver Nat).receiver.chan.queue = [] ∧
    (⟨⟨⟨([] : List Nat), some 2, true⟩⟩, DEFAULT_RELAXATION⟩ :
        RelaxedReceiver Nat).recv .closed = (.closed, [.try_recv .closed]) :=
  ⟨by decide, by decide,
   (c3_closed_drained_fails_fast_without_sleep
      (⟨⟨⟨([] : List Nat), some 2, true⟩⟩, DEFAULT_RELAXATION⟩ : RelaxedReceiver Nat)
      .closed (by decide) (by decide)).1⟩

/-- C4: send and send_blocking on a closed channel fail with a Closed error
carrying back the exact item that was passed in, on the fast path; and when
the fast path observed Full and the post-sleep wait path reports Closed, the
returned error again carries that exact item. -/
theorem c4_send_closed_carries_item_back (rsC rsF : RelaxedSender T) (m m2 : T)
    (w : SendOutcome)
    (hc : rsC.sender.chan.closed = true)
    (hf : (rsF.sender.try_send m2).fst = .full m2) :
    rsC.send m w = (.closed m, [.try_send (.closed m)]) ∧
    rsC.send_blocking m w = (.closed m, [.try_send (.closed m)]) ∧
    (rsF.send m2 .closed).fst = .closed m2 ∧
    (rsF.send_blocking m2 .closed).fst = .closed m2 := by
  have h : (rsC.sender.try_send m).fst = .closed m := by
    simp [Sender.try_send, hc]
  refine ⟨send_of_closed rsC m m w h, send_blocking_of_closed rsC m m w h, ?_, ?_⟩
  · rw [send_of_full rsF m2 m2 .closed hf]
    rfl
  · rw [send_blocking_of_full rsF m2 m2 .closed hf]
    rfl

/-- C4 witness: a closed channel and a full open channel of capacity 1; both
the fast path and the wait path hand the un-sent item back. -/
theorem c4_send_closed_carries_item_back_witness :
    (⟨⟨⟨([] : List Nat), some 2, true⟩⟩, DEFAULT_RELAXATION⟩ :
        RelaxedSender Nat).sender.chan.closed = true ∧
    ((⟨⟨⟨[5], some 1, false⟩⟩, DEFAULT_RELAXATION⟩ :
        RelaxedSender Nat).sender.try_send 7).fst = .full 7 ∧
    ((⟨⟨⟨([] : List Nat), some 2, true⟩⟩, DEFAULT_RELAXATION⟩ :
        RelaxedSender Nat).send 9 .ok).fst = .closed 9 ∧
    ((⟨⟨⟨[5], some 1, false⟩⟩, DEFAULT_RELAXATION⟩ :
        RelaxedSender Nat).send 7 .closed).fst = .closed 7 := by
  have h := c4_send_closed_carries_item_back
    (⟨⟨⟨([] : List Nat), some 2, true⟩⟩, DEFAULT_RELAXATION⟩ : RelaxedSender Nat)
    (⟨⟨⟨[5], some 1, false⟩⟩, DEFAULT_RELAXATION⟩ : RelaxedSender Nat)
    9 7 .ok (by decide) (by decide)
  refine ⟨by decide, by decide, ?_, h.2.2.1⟩
  rw [h.1]

/-- C6: every call performs at most two operations on the underlying
channel; its trace is either the single fast-path attempt, or the fast-path
attempt followed by one blind sleep (which touches the channel in no way)
and one wait-path operation whose result is returned unchanged. -/
theorem c6_at_most_two_channel_ops (rr : RelaxedReceiver T) (rs : RelaxedSender T)
    (m : T) (w : RecvResult T) (ws : SendOutcome) :
    ((rr.recv w).snd.filter RecvEvent.is_channel_op).length ≤ 2 ∧
    ((rr.recv_blocking w).snd.filter RecvEvent.is_channel_op).length ≤ 2 ∧
    ((rs.send m ws).snd.filter SendEvent.is_channel_op).length ≤ 2 ∧
    ((rs.send_blocking m ws).snd.filter SendEvent.is_channel_op).length ≤ 2 ∧
    ((rr.recv w).snd = [.try_recv ((rr.receiver.try_recv).fst)] ∨
      ((rr.recv w).snd = [.try_recv .empty, .sleep .cooperative rr.relax_for,
          .wait_recv .cooperative w] ∧ (rr.recv w).fst = w)) ∧
    ((rr.recv_blocking w).snd = [.try_recv ((rr.receiver.try_recv).fst)] ∨
      ((rr.recv_blocking w).snd = [.try_recv .empty, .sleep .thread rr.relax_for,
          .wait_recv .thread w] ∧ (rr.recv_blocking w).fst = w)) ∧
    ((rs.send m ws).snd = [.try_send ((rs.sender.try_send m).fst)] ∨
      ((rs.send m ws).snd = [.try_send (.full m), .sleep .cooperative rs.relax_for,
          .wait_send .cooperative (Sender.send_wait ws m)] ∧
        (rs.send m ws).fst = Sender.send_wait ws m)) ∧
    ((rs.send_blocking m ws).snd = [.try_send ((rs.sender.try_send m).fst)] ∨
      ((rs.send_blocking m ws).snd = [.try_send (.full m), .sleep .thread rs.relax_for,
          .wait_send .thread (Sender.send_wait ws m)] ∧
        (rs.send_blocking m ws).fst = Sender.send_wait ws m)) := by
  refine ⟨?_, ?_, ?_, ?_, ?_, ?_, ?_, ?_⟩
  · cases h : (rr.receiver.try_recv).fst with
    | ok m2 => rw [recv_of_ok rr w m2 h]; simp [RecvEvent.is_channel_op]
    | empty => rw [recv_of_empty rr w h]; simp [RecvEvent.is_channel_op]
    | closed => rw [recv_of_closed rr w h]; simp [RecvEvent.is_channel_op]
  · cases h : (rr.receiver.try_recv).fst with
    | ok m2 => rw [recv_blocking_of_ok rr w m2 h]; simp [RecvEvent.is_channel_op]
    | empty => rw [recv_blocking_of_empty rr w h]; simp [RecvEvent.is_channel_op]
    | closed => rw [recv_blocking_of_closed rr w h]; simp [RecvEvent.is_channel_op]
  · cases h : (rs.sender.try_send m).fst with
    | ok => rw [send_of_ok rs m ws h]; simp [SendEvent.is_channel_op]
    | full m2 => rw [send_of_full rs m m2 ws h]; simp [SendEvent.is_channel_op]
    | closed m2 => rw [send_of_closed rs m m2 ws h]; simp [SendEvent.is_channel_op]
  · cases h : (rs.sender.try_send m).fst with
    | ok => rw [send_blocking_of_ok rs m ws h]; simp [SendEvent.is_channel_op]
    | full m2 => rw [send_blocking_of_full rs m m2 ws h]; simp [SendEvent.is_channel_op]
    | closed m2 => rw [send_blocking_of_closed rs m m2 ws h]; simp [SendEvent.is_channel_op]
  · cases h : (rr.receiver.try_recv).fst with
    | ok m2 => exact .inl (by rw [recv_of_ok rr w m2 h])
    | empty => exact .inr ⟨by rw [recv_of_empty rr w h], by rw [recv_of_empty rr w h]⟩
    | closed => exact .inl (by rw [recv_of_closed rr w h])
  · cases h : (rr.receiver.try_recv).fst with
    | ok m2 => exact .inl (by rw [recv_blocking_of_ok rr w m2 h])
    | empty =>
        exact .inr ⟨by rw [recv_blocking_of_empty rr w h],
          by rw [recv_blocking_of_empty rr w h]⟩
    | closed => exact .inl (by rw [recv_blocking_of_closed rr w h])
  · cases h : (rs.sender.try_send m).fst with
    | ok => exact .inl (by rw [send_of_ok rs m ws h])
    | full m2 =>
        cases try_send_full_msg rs.sender m m2 h
        exact .inr ⟨by rw [send_of_full rs m m ws h], by rw [send_of_full rs m m ws h]⟩
    | closed m2 => exact .inl (by rw [send_of_closed rs m m2 ws h])
  · cases h : (rs.sender.try_send m).fst with
    | ok => exact .inl (by rw [send_blocking_of_ok rs m ws h])
    | full m2 =>
        cases try_send_full_msg rs.sender m m2 h
        exact .inr ⟨by rw [send_blocking_of_full rs m m ws h],
          by rw [send_blocking_of_full rs m m ws h]⟩
    | closed m2 => exact .inl (by rw [send_blocking_of_closed rs m m2 ws h])

/-- C8: cloning a relaxed endpoint shares the same underlying channel and
copies the same relaxation duration value; the duration is exactly the one
supplied at construction (relaxing_for, or new with the default), and every
sleep any operation ever performs uses exactly that stored duration. -/
theorem c8_clone_shares_channel_copies_duration (rr : RelaxedReceiver T)
    (rs : RelaxedSender T) (r : Receiver T) (s : Sender T) (d : Duration)
    (w : RecvResult T) (m : T) (ws : SendOutcome) :
    rr.clone.receiver = rr.receiver ∧
    rr.clone.relax_for = rr.relax_for ∧
    rs.clone.sender = rs.sender ∧
    rs.clone.relax_for = rs.relax_for ∧
    (RelaxedReceiver.relaxing_for r d).relax_for = d ∧
    (RelaxedSender.relaxing_for s d).relax_for = d ∧
    (RelaxedReceiver.new r).relax_for = DEFAULT_RELAXATION ∧
    (RelaxedSender.new s).relax_for = DEFAULT_RELAXATION ∧
    ((rr.recv w).snd.filterMap RecvEvent.sleep_dur).all
      (fun x => decide (x = rr.relax_for)) = true ∧
    ((rr.recv_blocking w).snd.filterMap RecvEvent.sleep_dur).all
      (fun x => decide (x = rr.relax_for)) = true ∧
    ((rs.send m ws).snd.filterMap SendEvent.sleep_dur).all
      (fun x => decide (x = rs.relax_for)) = true ∧
    ((rs.send_blocking m ws).snd.filterMap SendEvent.sleep_dur).all
      (fun x => decide (x = rs.relax_for)) = true := by
  refine ⟨rfl, rfl, rfl, rfl, rfl, rfl, rfl, rfl, ?_, ?_, ?_, ?_⟩
  · cases h : (rr.receiver.try_recv).fst with
    | ok m2 => rw [recv_of_ok rr w m2 h]; simp [RecvEvent.sleep_dur]
    | empty => rw [recv_of_empty rr w h]; simp [RecvEvent.sleep_dur]
    | closed => rw [recv_of_closed rr w h]; simp [RecvEvent.sleep_dur]
  · cases h : (rr.receiver.try_recv).fst with
    | ok m2 => rw [recv_blocking_of_ok rr w m2 h]; simp [RecvEvent.sleep_dur]
    | empty => rw [recv_blocking_of_empty rr w h]; simp [RecvEvent.sleep_dur]
    | closed => rw [recv_blocking_of_closed rr w h]; simp [RecvEvent.sleep_dur]
  · cases h : (rs.sender.try_send m).fst with
    | ok => rw [send_of_ok rs m ws h]; simp [SendEvent.sleep_dur]
    | full m2 => rw [send_of_full rs m m2 ws h]; simp [SendEvent.sleep_dur]
    | closed m2 => rw [send_of_closed rs m m2 ws h]; simp [SendEvent.sleep_dur]
  · cases h : (rs.sender.try_send m).fst with
    | ok => rw [send_blocking_of_ok rs m ws h]; simp [SendEvent.sleep_dur]
    | full m2 => rw [send_blocking_of_full rs m m2 ws h]; simp [SendEvent.sleep_dur]
    | closed m2 => rw [send_blocking_of_closed rs m m2 ws h]; simp [SendEvent.sleep_dur]

/-- C9: recv_blocking makes exactly the same decisions as recv, and
send_blocking the same as send: the results agree, the traces agree once the
suspension kind is erased, and the two variants differ only in that every
suspension point of the first member of each pair is cooperative while every
suspension point of the second is thread-blocking. -/
theorem c9_blocking_variant_same_policy (rr : RelaxedReceiver T)
    (rs : RelaxedSender T) (w : RecvResult T) (m : T) (ws : SendOutcome) :
    (rr.recv_blocking w).fst = (rr.recv w).fst ∧
    (rr.recv_blocking w).snd.map RecvEvent.policy
      = (rr.recv w).snd.map RecvEvent.policy ∧
    (rr.recv w).snd.all (RecvEvent.kind_is .cooperative) = true ∧
    (rr.recv_blocking w).snd.all (RecvEvent.kind_is .thread) = true ∧
    (rs.send_blocking m ws).fst = (rs.send m ws).fst ∧
    (rs.send_blocking m ws).snd.map SendEvent.policy
      = (rs.send m ws).snd.map SendEvent.policy ∧
    (rs.send m ws).snd.all (SendEvent.kind_is .cooperative) = true ∧
    (rs.send_blocking m ws).snd.all (SendEvent.kind_is .thread) = true := by
  have hr : (rr.recv_blocking w).fst = (rr.recv w).fst ∧
      (rr.recv_blocking w).snd.map RecvEvent.policy
        = (rr.recv w).snd.map RecvEvent.policy ∧
      (rr.recv w).snd.all (RecvEvent.kind_is .cooperative) = true ∧
      (rr.recv_blocking w).snd.all (RecvEvent.kind_is .thread) = true := by
    cases h : (rr.receiver.try_recv).fst with
    | ok m2 =>
        rw [recv_of_ok rr w m2 h, recv_blocking_of_ok rr w m2 h]
        exact ⟨rfl, rfl, rfl, rfl⟩
    | empty =>
        rw [recv_of_empty rr w h, recv_blocking_of_empty rr w h]
        exact ⟨rfl, rfl, rfl, rfl⟩
    | closed =>
        rw [recv_of_closed rr w h, recv_blocking_of_closed rr w h]
        exact ⟨rfl, rfl, rfl, rfl⟩
  have hs : (rs.send_blocking m ws).fst = (rs.send m ws).fst ∧
      (rs.send_blocking m ws).snd.map SendEvent.policy
        = (rs.send m ws).snd.map SendEvent.policy ∧
      (rs.send m ws).snd.all (SendEvent.kind_is .cooperative) = true ∧
      (rs.send_blocking m ws).snd.all (SendEvent.kind_is .thread) = true := by
    cases h : (rs.sender.try_send m).fst with
    | ok =>
        rw [send_of_ok rs m ws h, send_blocking_of_ok rs m ws h]
        exact ⟨rfl, rfl, rfl, rfl⟩
    | full m2 =>
        rw [send_of_full rs m m2 ws h, send_blocking_of_full rs m m2 ws h]
        exact ⟨rfl, rfl, rfl, rfl⟩
    | closed m2 =>
        rw [send_of_closed rs m m2 ws h, send_blocking_of_closed rs m m2 ws h]
        exact ⟨rfl, rfl, rfl, rfl⟩
  exact ⟨hr.1, hr.2.1, hr.2.2.1, hr.2.2.2, hs.1, hs.2.1, hs.2.2.1, hs.2.2.2⟩

end RelaxedChannel
